import Mathlib

/-!
Verification of the InternApp client against its specification.

The development shallowly embeds the parts of the TypeScript source that
carry state-machine or decision logic:

* the session/role resolver (`useAuth` hook): derived status, role
  derivation from user metadata, initial session fetch, auth-change events;
* the route guard logic: per-section layout redirect effects
  (EmployerLayout, StudentLayout), the landing screen redirect, and the
  login screens (which contain no redirect logic);
* the application submission flow (`useApply`): profile auto-creation,
  duplicate-application check, insert with status "submitted";
* the two employer-side application status update call sites
  (applicants screen and employer applications screen).

Machine state is passed explicitly; backend calls are modelled by their
observable request/response data.
-/

namespace InternApp

/-- Role as in the source: UserRole = student or employer. -/
inductive Role
| student
| employer
deriving DecidableEq, Repr

/-- Derived auth status from the useAuth hook. -/
inductive Status
| loading
| authenticated
| unauthenticated
deriving DecidableEq, Repr

/-- The part of the backend user record the client reads: id, email, and
the signup-time role stored in user metadata. -/
structure User where
  id : String
  email : Option String
  userMetadataRole : Option Role
deriving DecidableEq, Repr

/-- A backend session; the client only dereferences its user. -/
structure Session where
  user : User
deriving DecidableEq, Repr

/-- State held by the useAuth hook: the cached session, the loading flag
(true until the initial session fetch resolves), and the stored error. -/
structure ResolverState where
  session : Option Session
  loading : Bool
  error : Option String
deriving DecidableEq, Repr

/-- Hook state at mount: no session, loading, no error. -/
def initialResolverState : ResolverState :=
  { session := none, loading := true, error := none }

/-- Derived status, as in useAuth: loading if the loading flag is set,
else authenticated exactly when a session exists. -/
def statusOf (st : ResolverState) : Status :=
  if st.loading then Status.loading
  else if st.session.isSome then Status.authenticated
  else Status.unauthenticated

/-- Derived user: the session user when a session exists, else none. -/
def userOf (st : ResolverState) : Option User :=
  match st.session with
  | some s => some s.user
  | none => none

/-- Derived role: read from the user metadata, null when absent. -/
def roleOf (st : ResolverState) : Option Role :=
  match userOf st with
  | some u => u.userMetadataRole
  | none => none

/-- Auth-change events delivered by the backend session stream. -/
inductive AuthChangeEvent
| signedIn
| signedOut
| tokenRefreshed
| otherEvent
deriving DecidableEq, Repr

/-- The onAuthStateChange listener body: store the new session, leave
loading, and clear the stored error on sign-in and sign-out events. -/
def onAuthStateChange (st : ResolverState) (evt : AuthChangeEvent)
    (s : Option Session) : ResolverState :=
  { st with
    session := s
    loading := false
    error :=
      if evt = AuthChangeEvent.signedIn ∨ evt = AuthChangeEvent.signedOut
      then none else st.error }

/-- The initial session fetch. The argument is the observed result of the
single getSession call; the second component of the result counts how many
session fetches the body issues (the source calls getSession once, with no
retry loop in either branch). On success the session is stored; on failure
the error message is stored; both branches clear the loading flag. -/
def initializeAuth (st : ResolverState)
    (fetchResult : Except String (Option Session)) : ResolverState × Nat :=
  match fetchResult with
  | Except.ok s => ({ st with session := s, loading := false }, 1)
  | Except.error msg => ({ st with error := some msg, loading := false }, 1)

/-! Route guard embedding.  Navigation paths are split by the section that
owns their layout; the rest of the path below a section does not influence
any redirect decision in the source. -/

/-- Navigation paths: home (the landing screen), the two login screens,
and the student and employer sections with their sub-path segments. -/
inductive Path
| home
| loginStudent
| loginEmployer
| studentSection (rest : List String)
| employerSection (rest : List String)
deriving DecidableEq, Repr

/-- Guard decision: render unchanged, or issue one redirect. -/
inductive Decision
| allow
| redirect (target : Path)
deriving DecidableEq, Repr

/-- The student dashboard root. -/
def studentRoot : Path := Path.studentSection []

/-- The employer dashboard root. -/
def employerRoot : Path := Path.employerSection []

/-- Redirect effect of EmployerLayout: while loading do nothing;
unauthenticated goes to the employer login; an authenticated student goes
to the student dashboard root; an authenticated user with no role goes
home; an authenticated employer falls through and is rendered.  (The
defensive branch for a role that is neither student nor employer is
unreachable since Role has exactly those two values.) -/
def employerLayoutDecision (loading : Bool) (st : Status)
    (role : Option Role) : Decision :=
  if loading then Decision.allow
  else if st = Status.unauthenticated then Decision.redirect Path.loginEmployer
  else
    match st, role with
    | Status.authenticated, some Role.student => Decision.redirect studentRoot
    | Status.authenticated, some Role.employer => Decision.allow
    | Status.authenticated, none => Decision.redirect Path.home
    | _, _ => Decision.allow

/-- Redirect effect of StudentLayout, the mirror image: unauthenticated
goes to the student login; an authenticated employer goes to the employer
dashboard root; no role goes home; a student is rendered. -/
def studentLayoutDecision (loading : Bool) (st : Status)
    (role : Option Role) : Decision :=
  if loading then Decision.allow
  else if st = Status.unauthenticated then Decision.redirect Path.loginStudent
  else
    match st, role with
    | Status.authenticated, some Role.employer => Decision.redirect employerRoot
    | Status.authenticated, some Role.student => Decision.allow
    | Status.authenticated, none => Decision.redirect Path.home
    | _, _ => Decision.allow

/-- Redirect effect of the landing screen: an authenticated user with a
role is sent to the dashboard of that role; everyone else sees the
landing page. -/
def landingDecision (st : Status) (metaRole : Option Role) : Decision :=
  if st = Status.authenticated then
    match metaRole with
    | some Role.student => Decision.redirect studentRoot
    | some Role.employer => Decision.redirect employerRoot
    | none => Decision.allow
  else Decision.allow

/-- The aggregate guard decision for a resolver state and a path: each
path is governed by the redirect logic of the screen or section layout
that owns it; the login screens contain no redirect logic and always
render. -/
def routeGuard (st : ResolverState) (p : Path) : Decision :=
  match p with
  | Path.home => landingDecision (statusOf st) (roleOf st)
  | Path.loginStudent => Decision.allow
  | Path.loginEmployer => Decision.allow
  | Path.studentSection _ => studentLayoutDecision st.loading (statusOf st) (roleOf st)
  | Path.employerSection _ => employerLayoutDecision st.loading (statusOf st) (roleOf st)

/-! Application and profile data model, with the client-side mutation
flows that touch them. -/

/-- Application status values. -/
inductive AppStatus
| submitted
| accepted
| rejected
deriving DecidableEq, Repr

/-- An application row as the client writes and reads it. -/
structure Application where
  id : String
  jobId : String
  studentUserId : String
  note : Option String
  status : AppStatus
  contactEmail : Option String
  contactPhone : Option String
deriving DecidableEq, Repr

/-- A profile row (the fields the apply flow writes). -/
structure Profile where
  id : String
  role : Role
  name : String
  interests : List String
deriving DecidableEq, Repr

/-- Backend table state visible to the client flows. -/
structure Db where
  profiles : List Profile
  applications : List Application
deriving DecidableEq, Repr

/-- Profile display name derived in useApply from the user email: the
part before the first at-sign, or "Student" when the email is absent or
that part is empty (the source falls back on any falsy value). -/
def profileNameOfEmail (email : Option String) : String :=
  match email with
  | none => "Student"
  | some e =>
    let localPart := (e.splitOn "@").headD ""
    if localPart = "" then "Student" else localPart

/-- Existence check for a profile row keyed by user id. -/
def hasProfileFor (db : Db) (uid : String) : Bool :=
  db.profiles.any (fun p => p.id == uid)

/-- The profile auto-creation step of useApply: when the user has no
profile row, insert one with role student, the derived name, and an empty
interests list. -/
def ensureProfile (db : Db) (u : User) : Db :=
  if hasProfileFor db u.id then db
  else
    { db with profiles := db.profiles ++
        [{ id := u.id, role := Role.student,
           name := profileNameOfEmail u.email, interests := [] }] }

/-- The duplicate check of useApply: a row for this job and student. -/
def hasApplicationFor (db : Db) (uid jobId : String) : Bool :=
  db.applications.any (fun a => a.jobId == jobId && a.studentUserId == uid)

/-- The apply flow of useApply as a state transformer. Steps, in source
order: require an authenticated user; ensure a profile row exists; reject
when an application for the pair already exists; otherwise insert one
application row with status submitted. The newId argument stands for the
row id the backend generates for the insert. -/
def applyRun (db : Db) (user : Option User) (jobId : String)
    (note contactEmail contactPhone : Option String) (newId : String) :
    Db × Except String Unit :=
  match user with
  | none => (db, Except.error "No authenticated user")
  | some u =>
    let db1 := ensureProfile db u
    if hasApplicationFor db1 u.id jobId then
      (db1, Except.error "You have already applied for this position")
    else
      ({ db1 with applications := db1.applications ++
          [{ id := newId, jobId := jobId, studentUserId := u.id,
             note := note, status := AppStatus.submitted,
             contactEmail := contactEmail, contactPhone := contactPhone }] },
       Except.ok ())

/-- The backend effect of the update-by-id status mutation both employer
screens issue. -/
def updateApplicationStatusDb (db : Db) (applicationId : String)
    (newStatus : AppStatus) : Db :=
  { db with applications :=
      db.applications.map fun a =>
        if a.id == applicationId then { a with status := newStatus } else a }

/-- The client call sites that invoke the status update: the Accept,
Reject and Change buttons of the applicants screen, and the Accept and
Reject buttons of the employer applications screen. The Change button
carries the status currently shown on the row. -/
inductive StatusUpdateCall
| applicantsAccept
| applicantsReject
| applicantsToggle (shown : AppStatus)
| employerAppsAccept
| employerAppsReject
deriving DecidableEq, Repr

/-- The status argument each call site passes, as written in the source:
literals for the Accept and Reject buttons, and for the Change button
rejected when the shown status is accepted, else accepted. -/
def statusArgOfCall : StatusUpdateCall → AppStatus
| StatusUpdateCall.applicantsAccept => AppStatus.accepted
| StatusUpdateCall.applicantsReject => AppStatus.rejected
| StatusUpdateCall.applicantsToggle shown =>
    if shown = AppStatus.accepted then AppStatus.rejected else AppStatus.accepted
| StatusUpdateCall.employerAppsAccept => AppStatus.accepted
| StatusUpdateCall.employerAppsReject => AppStatus.rejected

/-- Observable outcome data of one backend update call: the returned rows
(none when the call requests no returned rows, as the employer
applications screen does) and the error field. -/
structure UpdateResponse where
  rows : Option (List Application)
  error : Option String
deriving DecidableEq, Repr

/-- Outcome of updateApplicationStatus on the applicants screen: fail on
an auth error or a backend error, and treat a missing or empty returned
row set as a blocked update with a permission message; succeed otherwise. -/
def applicantsUpdateOutcome (auth : Except String User)
    (resp : UpdateResponse) : Except String Unit :=
  match auth with
  | Except.error _ => Except.error "Authentication failed"
  | Except.ok _ =>
    match resp.error with
    | some e => Except.error e
    | none =>
      match resp.rows with
      | none =>
        Except.error "Update blocked - you may not have permission to update this application"
      | some rows =>
        if rows.length = 0 then
          Except.error "Update blocked - you may not have permission to update this application"
        else Except.ok ()

/-- Outcome of updateApplicationStatus on the employer applications
screen: only the error field is inspected; the affected-row result is
never requested or checked, so any error-free response counts as
success. -/
def employerApplicationsUpdateOutcome (resp : UpdateResponse) :
    Except String Unit :=
  match resp.error with
  | some e => Except.error e
  | none => Except.ok ()

/-! Concrete fixtures used by witness evaluations. -/

/-- A student user fixture. -/
def studentUserW : User :=
  { id := "stud-1", email := some "ada@example.com",
    userMetadataRole := some Role.student }

/-- A student user fixture with no email. -/
def noEmailUserW : User :=
  { id := "stud-2", email := none, userMetadataRole := some Role.student }

/-- An unauthenticated resolver state fixture. -/
def unauthStateW : ResolverState :=
  { session := none, loading := false, error := none }

/-- An authenticated student resolver state fixture. -/
def studentStateW : ResolverState :=
  { session := some { user := studentUserW }, loading := false, error := none }

/-- An employer user fixture. -/
def employerUserW : User :=
  { id := "emp-1", email := none, userMetadataRole := some Role.employer }

/-- An authenticated employer resolver state fixture. -/
def employerStateW : ResolverState :=
  { session := some { user := employerUserW }, loading := false, error := none }

/-- A database fixture that already holds a profile for studentUserW and
no applications. -/
def dbWithProfileW : Db :=
  { profiles := [{ id := "stud-1", role := Role.student, name := "ada",
                   interests := [] }],
    applications := [] }

/-- The empty database fixture. -/
def dbEmptyW : Db :=
  { profiles := [], applications := [] }

/-- The application row the apply fixture run inserts. -/
def insertedAppW : Application :=
  { id := "app-1", jobId := "job-1", studentUserId := "stud-1",
    note := none, status := AppStatus.submitted,
    contactEmail := none, contactPhone := none }

/-- C1: for every (status, role, path) combination the guard decision is
total, yielding allow or exactly one redirect target, and evaluating the
guard in the same state on any path it redirects to yields allow, so no
redirect loops arise. -/
theorem routeGuard_total_and_noRedirectLoops (st : ResolverState) (p : Path) :
    (routeGuard st p = Decision.allow ∨
      ∃ t, routeGuard st p = Decision.redirect t ∧
        ∀ u, routeGuard st p = Decision.redirect u → u = t) ∧
    (∀ t, routeGuard st p = Decision.redirect t →
      routeGuard st t = Decision.allow) := by
  constructor
  · cases hr : routeGuard st p with
    | allow => exact Or.inl rfl
    | redirect t =>
      refine Or.inr ⟨t, rfl, ?_⟩
      intro u hu
      injection hu with h
      exact h.symm
  · intro t ht
    obtain ⟨sess, load, err⟩ := st
    cases load with
    | true =>
      cases p <;>
        simp_all [routeGuard, statusOf, roleOf, userOf, landingDecision,
          studentLayoutDecision, employerLayoutDecision, studentRoot, employerRoot]
    | false =>
      rcases sess with _ | ⟨⟨uid, uemail, mrole⟩⟩
      · cases p <;>
          simp_all [routeGuard, statusOf, roleOf, userOf, landingDecision,
            studentLayoutDecision, employerLayoutDecision, studentRoot,
            employerRoot] <;>
          (subst ht; rfl)
      · rcases mrole with _ | r
        · cases p <;>
            simp_all [routeGuard, statusOf, roleOf, userOf, landingDecision,
              studentLayoutDecision, employerLayoutDecision, studentRoot,
              employerRoot] <;>
            (subst ht; rfl)
        · cases r <;> cases p <;>
            simp_all [routeGuard, statusOf, roleOf, userOf, landingDecision,
              studentLayoutDecision, employerLayoutDecision, studentRoot,
              employerRoot] <;>
            (subst ht; rfl)

/-- Witness for C1: in a concrete unauthenticated state the employer
section redirects to the employer login page, and that target is itself
allowed. -/
theorem routeGuard_total_and_noRedirectLoops_witness :
    routeGuard unauthStateW (Path.employerSection []) =
      Decision.redirect Path.loginEmployer ∧
    routeGuard unauthStateW Path.loginEmployer = Decision.allow :=
  ⟨by decide,
   (routeGuard_total_and_noRedirectLoops unauthStateW
       (Path.employerSection [])).2 Path.loginEmployer (by decide)⟩

/-- Counterexample to C2 as stated: in an unauthenticated state, visiting
the employer section (a non-login, non-home path) redirects to the
employer login page and not to home. -/
theorem unauthGuard_employerSection_not_home :
    routeGuard unauthStateW (Path.employerSection []) =
      Decision.redirect Path.loginEmployer ∧
    ¬ routeGuard unauthStateW (Path.employerSection []) =
      Decision.redirect Path.home := by decide

/-- C2 amended: when status is unauthenticated, any path under the
employer section redirects to the employer login page and any path under
the student section redirects to the student login page, while home and
the login pages are allowed. -/
theorem unauth_redirects_to_section_login (st : ResolverState)
    (rest : List String) (h : statusOf st = Status.unauthenticated) :
    routeGuard st (Path.employerSection rest) =
      Decision.redirect Path.loginEmployer ∧
    routeGuard st (Path.studentSection rest) =
      Decision.redirect Path.loginStudent ∧
    routeGuard st Path.home = Decision.allow ∧
    routeGuard st Path.loginStudent = Decision.allow ∧
    routeGuard st Path.loginEmployer = Decision.allow := by
  obtain ⟨sess, load, err⟩ := st
  cases load with
  | true => simp [statusOf] at h
  | false =>
    cases sess with
    | some s => simp [statusOf] at h
    | none =>
      refine ⟨?_, ?_, ?_, rfl, rfl⟩ <;>
        simp [routeGuard, statusOf, roleOf, userOf, landingDecision,
          studentLayoutDecision, employerLayoutDecision]

/-- Witness for the amended C2 at a concrete unauthenticated state. -/
theorem unauth_redirects_to_section_login_witness :
    routeGuard unauthStateW (Path.studentSection ["calendar"]) =
      Decision.redirect Path.loginStudent :=
  (unauth_redirects_to_section_login unauthStateW ["calendar"] (by decide)).2.1

/-- C3: an authenticated student visiting any path under the employer
section is redirected to the student dashboard root and is never
redirected to the employer dashboard root from any path; symmetrically,
an authenticated employer visiting any path under the student section is
redirected to the employer dashboard root and is never redirected to the
student dashboard root. -/
theorem authRole_crossSection_redirects (st : ResolverState)
    (rest : List String) (hs : statusOf st = Status.authenticated) :
    (roleOf st = some Role.student →
      routeGuard st (Path.employerSection rest) = Decision.redirect studentRoot ∧
      ∀ p, ¬ routeGuard st p = Decision.redirect employerRoot) ∧
    (roleOf st = some Role.employer →
      routeGuard st (Path.studentSection rest) = Decision.redirect employerRoot ∧
      ∀ p, ¬ routeGuard st p = Decision.redirect studentRoot) := by
  obtain ⟨sess, load, err⟩ := st
  cases load with
  | true => simp [statusOf] at hs
  | false =>
    rcases sess with _ | ⟨⟨uid, uemail, mrole⟩⟩
    · simp [statusOf] at hs
    · constructor
      · intro hr
        simp [roleOf, userOf] at hr
        subst hr
        refine ⟨by simp [routeGuard, statusOf, roleOf, userOf,
          employerLayoutDecision], ?_⟩
        intro p
        cases p <;>
          simp [routeGuard, statusOf, roleOf, userOf, landingDecision,
            studentLayoutDecision, employerLayoutDecision, studentRoot,
            employerRoot]
      · intro hr
        simp [roleOf, userOf] at hr
        subst hr
        refine ⟨by simp [routeGuard, statusOf, roleOf, userOf,
          studentLayoutDecision], ?_⟩
        intro p
        cases p <;>
          simp [routeGuard, statusOf, roleOf, userOf, landingDecision,
            studentLayoutDecision, employerLayoutDecision, studentRoot,
            employerRoot]

/-- Witness for C3 at concrete authenticated student and employer
states. -/
theorem authRole_crossSection_redirects_witness :
    routeGuard studentStateW (Path.employerSection ["jobs"]) =
      Decision.redirect studentRoot ∧
    ¬ routeGuard studentStateW Path.home = Decision.redirect employerRoot ∧
    routeGuard employerStateW (Path.studentSection []) =
      Decision.redirect employerRoot :=
  ⟨((authRole_crossSection_redirects studentStateW ["jobs"] (by decide)).1
      (by decide)).1,
   ((authRole_crossSection_redirects studentStateW ["jobs"] (by decide)).1
      (by decide)).2 Path.home,
   ((authRole_crossSection_redirects employerStateW [] (by decide)).2
      (by decide)).1⟩

/-- C6: the derived status is a total function of the loading flag and
the session: loading while the initial fetch has not resolved,
authenticated exactly when loading is over and a session exists,
unauthenticated when loading is over and none exists; the derived role
depends only on the session and equals the signup-time metadata role of
the session user, null when the metadata or the session is absent. -/
theorem statusOf_total_and_role_from_session (st : ResolverState) :
    (st.loading = true → statusOf st = Status.loading) ∧
    (st.loading = false → st.session.isSome = true →
      statusOf st = Status.authenticated) ∧
    (st.loading = false → st.session = none →
      statusOf st = Status.unauthenticated) ∧
    (∀ st2 : ResolverState, st2.session = st.session → roleOf st2 = roleOf st) ∧
    (∀ s : Session, st.session = some s →
      roleOf st = s.user.userMetadataRole) ∧
    (st.session = none → roleOf st = none) := by
  obtain ⟨sess, load, err⟩ := st
  refine ⟨fun hl => ?_, fun hl hs => ?_, fun hl hs => ?_,
    fun st2 h2 => ?_, fun s hs => ?_, fun hs => ?_⟩
  · simp only at hl
    simp [statusOf, hl]
  · simp only at hl hs
    simp [statusOf, hl, hs]
  · simp only at hl hs
    simp [statusOf, hl, hs]
  · obtain ⟨sess2, load2, err2⟩ := st2
    simp only at h2
    subst h2
    rfl
  · simp only at hs
    simp [roleOf, userOf, hs]
  · simp only at hs
    simp [roleOf, userOf, hs]

/-- Witness for C6 at concrete authenticated and unauthenticated
states. -/
theorem statusOf_total_and_role_from_session_witness :
    statusOf studentStateW = Status.authenticated ∧
    roleOf studentStateW = some Role.student ∧
    roleOf unauthStateW = none :=
  ⟨(statusOf_total_and_role_from_session studentStateW).2.1 rfl rfl,
   (statusOf_total_and_role_from_session studentStateW).2.2.2.2.1
     { user := studentUserW } rfl,
   (statusOf_total_and_role_from_session unauthStateW).2.2.2.2.2 rfl⟩

/-- C7: when the initial session fetch fails, the resolver leaves the
loading state (the loading flag drops and the derived status is no longer
loading), the failure message is stored as the readable error string, and
the flow issues exactly one fetch, so no automatic retry occurs. -/
theorem initFetchFailure_stops_loading_no_retry (msg : String) :
    (initializeAuth initialResolverState (Except.error msg)).1.loading = false ∧
    statusOf (initializeAuth initialResolverState (Except.error msg)).1 =
      Status.unauthenticated ∧
    (initializeAuth initialResolverState (Except.error msg)).1.error = some msg ∧
    (initializeAuth initialResolverState (Except.error msg)).2 = 1 :=
  ⟨rfl, rfl, rfl, rfl⟩

/-- Witness for C7 at a concrete failure message. -/
theorem initFetchFailure_stops_loading_no_retry_witness :
    (initializeAuth initialResolverState
        (Except.error "Auth initialization failed")).1.error =
      some "Auth initialization failed" :=
  (initFetchFailure_stops_loading_no_retry "Auth initialization failed").2.2.1

/-- C8: on a session-change stream that emits signed-in with a session
and then signed-out with none, the resolver status runs loading, then
authenticated, then unauthenticated, and the stored error is cleared on
the signed-in transition and on the signed-out transition, whatever error
was stored before each. -/
theorem signin_signout_stream_transitions (e0 : Option String)
    (sess : Session) (st2 : ResolverState) :
    statusOf { session := none, loading := true, error := e0 } =
      Status.loading ∧
    statusOf (onAuthStateChange { session := none, loading := true, error := e0 }
      AuthChangeEvent.signedIn (some sess)) = Status.authenticated ∧
    (onAuthStateChange { session := none, loading := true, error := e0 }
      AuthChangeEvent.signedIn (some sess)).error = none ∧
    statusOf (onAuthStateChange
      (onAuthStateChange { session := none, loading := true, error := e0 }
        AuthChangeEvent.signedIn (some sess))
      AuthChangeEvent.signedOut none) = Status.unauthenticated ∧
    (onAuthStateChange
      (onAuthStateChange { session := none, loading := true, error := e0 }
        AuthChangeEvent.signedIn (some sess))
      AuthChangeEvent.signedOut none).error = none ∧
    (onAuthStateChange st2 AuthChangeEvent.signedIn (some sess)).error = none ∧
    (onAuthStateChange st2 AuthChangeEvent.signedOut none).error = none := by
  refine ⟨rfl, rfl, ?_, rfl, ?_, ?_, ?_⟩ <;> simp [onAuthStateChange]

/-- Witness for C8 at a concrete stream instance. -/
theorem signin_signout_stream_transitions_witness :
    statusOf (onAuthStateChange
      { session := none, loading := true, error := some "old failure" }
      AuthChangeEvent.signedIn (some { user := studentUserW })) =
      Status.authenticated ∧
    (onAuthStateChange
      { session := none, loading := true, error := some "old failure" }
      AuthChangeEvent.signedIn (some { user := studentUserW })).error = none :=
  ⟨(signin_signout_stream_transitions (some "old failure")
      { user := studentUserW } unauthStateW).2.1,
   (signin_signout_stream_transitions (some "old failure")
      { user := studentUserW } unauthStateW).2.2.1⟩

/-- Helper: the profile auto-creation step never touches applications. -/
theorem ensureProfile_applications (db : Db) (u : User) :
    (ensureProfile db u).applications = db.applications := by
  unfold ensureProfile
  split <;> rfl

/-- Helper: after the profile auto-creation step a profile row for the
user exists. -/
theorem ensureProfile_hasProfile (db : Db) (u : User) :
    hasProfileFor (ensureProfile db u) u.id = true := by
  unfold ensureProfile
  split
  · assumption
  · simp [hasProfileFor]

/-- Helper: the duplicate check reads only applications, so it is
unchanged by the profile auto-creation step. -/
theorem hasApplicationFor_ensureProfile (db : Db) (u : User)
    (uid jobId : String) :
    hasApplicationFor (ensureProfile db u) uid jobId =
      hasApplicationFor db uid jobId := by
  simp [hasApplicationFor, ensureProfile_applications]

/-- Helper: the profile check reads only profiles. -/
theorem hasProfileFor_congr (d1 d2 : Db) (uid : String)
    (h : d1.profiles = d2.profiles) :
    hasProfileFor d1 uid = hasProfileFor d2 uid := by
  simp [hasProfileFor, h]

/-- Helper: when the user already has a profile and an application for
the pair exists, apply leaves the database unchanged and fails with the
already-applied message. -/
theorem applyRun_alreadyApplied (db : Db) (u : User) (jobId : String)
    (n ce cp : Option String) (i : String)
    (hp : hasProfileFor db u.id = true)
    (ha : hasApplicationFor db u.id jobId = true) :
    applyRun db (some u) jobId n ce cp i =
      (db, Except.error "You have already applied for this position") := by
  have hep : ensureProfile db u = db := by
    unfold ensureProfile
    simp [hp]
  simp [applyRun, hep, ha]

/-- Helper: when no application for the pair exists, apply inserts one
row with status submitted after the profile step. -/
theorem applyRun_freshInsert (db : Db) (u : User) (jobId : String)
    (n ce cp : Option String) (i : String)
    (ha : hasApplicationFor db u.id jobId = false) :
    applyRun db (some u) jobId n ce cp i =
      ({ profiles := (ensureProfile db u).profiles,
         applications := db.applications ++
            [{ id := i, jobId := jobId, studentUserId := u.id, note := n,
               status := AppStatus.submitted, contactEmail := ce,
               contactPhone := cp }] },
        Except.ok ()) := by
  have ha1 : hasApplicationFor (ensureProfile db u) u.id jobId = false := by
    rw [hasApplicationFor_ensureProfile]
    exact ha
  simp [applyRun, ha1, ensureProfile_applications]

/-- C4: once a first application for a (student, job) pair has been
persisted by a successful apply, a second apply for the same pair fails
with the already-applied message and changes nothing; and when no
application for the pair exists, apply succeeds and appends exactly one
application row, whose status is submitted. -/
theorem apply_duplicate_rejected_and_single_insert (db : Db) (u : User)
    (jobId : String) (n1 ce1 cp1 : Option String) (i1 : String)
    (n2 ce2 cp2 : Option String) (i2 : String) :
    ((applyRun db (some u) jobId n1 ce1 cp1 i1).2 = Except.ok () →
      applyRun (applyRun db (some u) jobId n1 ce1 cp1 i1).1 (some u) jobId
          n2 ce2 cp2 i2 =
        ((applyRun db (some u) jobId n1 ce1 cp1 i1).1,
          Except.error "You have already applied for this position")) ∧
    (hasApplicationFor db u.id jobId = false →
      (applyRun db (some u) jobId n1 ce1 cp1 i1).2 = Except.ok () ∧
      ∃ a, (applyRun db (some u) jobId n1 ce1 cp1 i1).1.applications =
          db.applications ++ [a] ∧
        a.status = AppStatus.submitted ∧ a.jobId = jobId ∧
        a.studentUserId = u.id) := by
  by_cases hdup : hasApplicationFor db u.id jobId
  · constructor
    · intro hok
      have ha1 : hasApplicationFor (ensureProfile db u) u.id jobId = true := by
        rw [hasApplicationFor_ensureProfile]
        exact hdup
      simp [applyRun, ha1] at hok
    · intro hfresh
      rw [hdup] at hfresh
      cases hfresh
  · constructor
    · intro _
      rw [applyRun_freshInsert db u jobId n1 ce1 cp1 i1 (by simpa using hdup)]
      apply applyRun_alreadyApplied
      · exact (hasProfileFor_congr _ (ensureProfile db u) u.id rfl).trans
          (ensureProfile_hasProfile db u)
      · simp [hasApplicationFor]
    · intro _
      rw [applyRun_freshInsert db u jobId n1 ce1 cp1 i1 (by simpa using hdup)]
      exact ⟨rfl, ⟨_, rfl, rfl, rfl, rfl⟩⟩

/-- Witness for C4: on a concrete database a first apply succeeds and an
immediately repeated apply for the same pair is rejected with the
already-applied message and leaves the database unchanged. -/
theorem apply_duplicate_rejected_and_single_insert_witness :
    (applyRun dbWithProfileW (some studentUserW) "job-1" none none none
        "app-1").2 = Except.ok () ∧
    applyRun (applyRun dbWithProfileW (some studentUserW) "job-1" none none
        none "app-1").1 (some studentUserW) "job-1" none none none "app-2" =
      ((applyRun dbWithProfileW (some studentUserW) "job-1" none none none
          "app-1").1,
        Except.error "You have already applied for this position") :=
  ⟨((apply_duplicate_rejected_and_single_insert dbWithProfileW studentUserW
      "job-1" none none none "app-1" none none none "app-2").2 (by decide)).1,
   (apply_duplicate_rejected_and_single_insert dbWithProfileW studentUserW
      "job-1" none none none "app-1" none none none "app-2").1 (by rfl)⟩

/-- C5 evidence: the employer applications screen inspects only the error
field of the status update response, so a response with no error and zero
affected rows (whether the row set is absent, as in its own query, or
empty) is treated as success; the applicants screen treats the same
zero-row response as a blocked update with a permission message. -/
theorem employerApplications_zeroRow_silent_success :
    employerApplicationsUpdateOutcome { rows := none, error := none } =
      Except.ok () ∧
    employerApplicationsUpdateOutcome { rows := some [], error := none } =
      Except.ok () ∧
    applicantsUpdateOutcome (Except.ok employerUserW)
        { rows := some [], error := none } =
      Except.error
        "Update blocked - you may not have permission to update this application" :=
  ⟨rfl, rfl, rfl⟩

/-- Helper: no call site passes submitted to the status update. -/
theorem statusArgOfCall_ne_submitted (c : StatusUpdateCall) :
    ¬ statusArgOfCall c = AppStatus.submitted := by
  cases c with
  | applicantsToggle shown => cases shown <;> simp [statusArgOfCall]
  | _ => simp [statusArgOfCall]

/-- C9: every status-update call site passes accepted or rejected; a
status update invoked from any call site never produces a row with
status submitted that was not already in the table; and the apply insert
is the only write that creates a submitted row, every application row new
to the table after apply having status submitted. -/
theorem status_write_discipline :
    (∀ c : StatusUpdateCall,
      statusArgOfCall c = AppStatus.accepted ∨
        statusArgOfCall c = AppStatus.rejected) ∧
    (∀ (db : Db) (applicationId : String) (c : StatusUpdateCall)
        (a : Application),
      a ∈ (updateApplicationStatusDb db applicationId
            (statusArgOfCall c)).applications →
      a.status = AppStatus.submitted → a ∈ db.applications) ∧
    (∀ (db : Db) (u : User) (jobId : String) (n ce cp : Option String)
        (i : String) (a : Application),
      a ∈ (applyRun db (some u) jobId n ce cp i).1.applications →
      a ∉ db.applications → a.status = AppStatus.submitted) := by
  refine ⟨?_, ?_, ?_⟩
  · intro c
    cases c with
    | applicantsToggle shown => cases shown <;> simp [statusArgOfCall]
    | _ => simp [statusArgOfCall]
  · intro db applicationId c a ha hsub
    simp only [updateApplicationStatusDb, List.mem_map] at ha
    obtain ⟨b, hb, hab⟩ := ha
    by_cases h : (b.id == applicationId) = true
    · rw [if_pos h] at hab
      subst hab
      exact absurd hsub (statusArgOfCall_ne_submitted c)
    · rw [if_neg h] at hab
      subst hab
      exact hb
  · intro db u jobId n ce cp i a ha hnew
    by_cases hdup : hasApplicationFor db u.id jobId
    · have ha1 : hasApplicationFor (ensureProfile db u) u.id jobId = true := by
        rw [hasApplicationFor_ensureProfile]
        exact hdup
      simp only [applyRun, ha1, if_pos] at ha
      rw [ensureProfile_applications] at ha
      exact absurd ha hnew
    · rw [applyRun_freshInsert db u jobId n ce cp i (by simpa using hdup)] at ha
      simp only [List.mem_append, List.mem_singleton] at ha
      rcases ha with ha | ha
      · exact absurd ha hnew
      · rw [ha]

/-- Witness for C9: the row inserted by a concrete apply run has status
submitted, and the Accept button of the employer applications screen
passes accepted or rejected. -/
theorem status_write_discipline_witness :
    insertedAppW.status = AppStatus.submitted ∧
    (statusArgOfCall StatusUpdateCall.employerAppsAccept = AppStatus.accepted ∨
      statusArgOfCall StatusUpdateCall.employerAppsAccept =
        AppStatus.rejected) :=
  ⟨status_write_discipline.2.2 dbWithProfileW studentUserW "job-1" none none
      none "app-1" insertedAppW (by decide) (by decide),
   status_write_discipline.1 StatusUpdateCall.employerAppsAccept⟩

/-- Helper: apply leaves the profiles table as the profile step left
it, whatever the outcome. -/
theorem applyRun_profiles (db : Db) (u : User) (jobId : String)
    (n ce cp : Option String) (i : String) :
    (applyRun db (some u) jobId n ce cp i).1.profiles =
      (ensureProfile db u).profiles := by
  by_cases hdup : hasApplicationFor (ensureProfile db u) u.id jobId
  · simp [applyRun, hdup]
  · simp [applyRun, hdup]

/-- C10: when the caller has no profile row, apply creates exactly one
profile with the caller id, role hard-coded to student, an empty
interests list, and a name derived from the email (the Student fallback
when the email is absent); and after a successful apply a profile row for
the caller always exists. -/
theorem apply_ensures_student_profile (db : Db) (u : User) (jobId : String)
    (n ce cp : Option String) (i : String) :
    (hasProfileFor db u.id = false →
      ∃ prof,
        (applyRun db (some u) jobId n ce cp i).1.profiles =
          db.profiles ++ [prof] ∧
        prof.id = u.id ∧ prof.role = Role.student ∧ prof.interests = [] ∧
        prof.name = profileNameOfEmail u.email ∧
        (u.email = none → prof.name = "Student")) ∧
    ((applyRun db (some u) jobId n ce cp i).2 = Except.ok () →
      hasProfileFor (applyRun db (some u) jobId n ce cp i).1 u.id = true) := by
  constructor
  · intro hnone
    refine ⟨{ id := u.id, role := Role.student,
              name := profileNameOfEmail u.email, interests := [] },
      ?_, rfl, rfl, rfl, rfl, ?_⟩
    · rw [applyRun_profiles]
      unfold ensureProfile
      simp [hnone]
    · intro he
      simp [profileNameOfEmail, he]
  · intro _
    calc hasProfileFor (applyRun db (some u) jobId n ce cp i).1 u.id
        = hasProfileFor (ensureProfile db u) u.id :=
          hasProfileFor_congr _ _ _ (applyRun_profiles db u jobId n ce cp i)
      _ = true := ensureProfile_hasProfile db u

/-- Witness for C10: a concrete apply by a user with no profile row and
no email creates the student profile with the Student fallback name, and
the profile exists after the successful apply. -/
theorem apply_ensures_student_profile_witness :
    (∃ prof,
      (applyRun dbEmptyW (some noEmailUserW) "job-1" none none none
          "app-9").1.profiles = dbEmptyW.profiles ++ [prof] ∧
      prof.id = noEmailUserW.id ∧ prof.role = Role.student ∧
      prof.interests = [] ∧
      prof.name = profileNameOfEmail noEmailUserW.email ∧
      (noEmailUserW.email = none → prof.name = "Student")) ∧
    hasProfileFor (applyRun dbEmptyW (some noEmailUserW) "job-1" none none
        none "app-9").1 noEmailUserW.id = true :=
  ⟨(apply_ensures_student_profile dbEmptyW noEmailUserW "job-1" none none
      none "app-9").1 (by decide),
   (apply_ensures_student_profile dbEmptyW noEmailUserW "job-1" none none
      none "app-9").2 (by rfl)⟩

end InternApp
